import Mathlib

/-!
Shallow embedding of `nvpowermizerd.c`, a daemon that toggles a GPU between
low-power and high-power PowerMizer modes based on X idle time, and proofs
about its controller logic.

External effects (the `system()` call launching `nvidia-settings`, `usleep`,
`exit`, X resource management) are modelled as data: each poll step returns
the list of activation actions it issued together with the `usleep` argument,
and the environment supplies the return value of `system()` as an input.
-/

namespace Nvpowermizerd

/-- `#define SWITCH_TO_LOW_POWER_AFTER_IDLE_MS (20000)` -/
def SWITCH_TO_LOW_POWER_AFTER_IDLE_MS : Int := 20000

/-- `#define IDLE_POLL_FREQ_LOW_POWER_MS (10)` -/
def IDLE_POLL_FREQ_LOW_POWER_MS : Int := 10

/-- `#define IDLE_POLL_FREQ_HIGH_POWER_MS (5000)` -/
def IDLE_POLL_FREQ_HIGH_POWER_MS : Int := 5000

/-- `typedef enum Mode { LOW_POWER, HIGH_POWER } Mode;` -/
inductive Mode
  | LOW_POWER
  | HIGH_POWER
deriving DecidableEq, Repr

/-- An invocation of the external power-mode-switch action:
`system("nvidia-settings -a [gpu:<gpuID>]/GPUPowerMizerMode=<0|1>")`.
The mode field is the target mode (`LOW_POWER` for `=0`, `HIGH_POWER` for `=1`)
and the integer is the GPU id substituted into the command string. -/
inductive Action
  | activate (mode : Mode) (gpuID : Int)
deriving DecidableEq, Repr

/-- Target mode of an activation action. -/
def targetOf : Action → Mode
  | Action.activate m _ => m

/-- The mutable globals the controller reads and writes:
`static Mode currentMode = LOW_POWER;` and `static int gpuID = 0;`
(`gpuID` is fixed once argument parsing is done). -/
structure ControllerState where
  currentMode : Mode
  gpuID : Int
deriving DecidableEq, Repr

/-- Controller state at entry to the poll loop: `currentMode` starts as
`LOW_POWER` (its static initializer) and `gpuID` comes from `--gpuid`. -/
def initialState (gpuID : Int) : ControllerState :=
  { currentMode := Mode.LOW_POWER, gpuID := gpuID }

/-- `SwitchToLowPower()`: runs `system(lowPowerCmd)` (its return value
`retVal`, supplied here by the environment, is only logged) and then sets
`currentMode = LOW_POWER` unconditionally. Returns the updated state and
the single action issued. -/
def SwitchToLowPower (s : ControllerState) (retVal : Int) :
    ControllerState × List Action :=
  ({ s with currentMode := Mode.LOW_POWER },
   [Action.activate Mode.LOW_POWER s.gpuID])

/-- `SwitchToHighPower()`: runs `system(highPowerCmd)` (its return value
`retVal` is only logged) and then sets `currentMode = HIGH_POWER`
unconditionally. Returns the updated state and the single action issued. -/
def SwitchToHighPower (s : ControllerState) (retVal : Int) :
    ControllerState × List Action :=
  ({ s with currentMode := Mode.HIGH_POWER },
   [Action.activate Mode.HIGH_POWER s.gpuID])

/-- Outcome of one iteration of the `while (1)` loop in `main`:
the state after the iteration, the activation actions issued during it,
and the argument passed to `usleep` (microseconds) before the next poll. -/
structure PollResult where
  state : ControllerState
  actions : List Action
  sleepUs : Int
deriving DecidableEq, Repr

/-- One iteration of the poll loop in `main` (lines 221-246): `idleMS` is the
sample returned by `GetIdleTimeMS()`, `retVal` the return value the
environment gives to the `system()` call should a switch be issued.
  - `LOW_POWER`, `idleMS < SWITCH_TO_LOW_POWER_AFTER_IDLE_MS`:
    `SwitchToHighPower()`, then
    `usleep((SWITCH_TO_LOW_POWER_AFTER_IDLE_MS - idleMS + 1) * 1000)`;
  - `LOW_POWER` otherwise: `usleep(IDLE_POLL_FREQ_LOW_POWER_MS * 1000)`;
  - `HIGH_POWER`, `idleMS >= SWITCH_TO_LOW_POWER_AFTER_IDLE_MS`:
    `SwitchToLowPower()`, then `usleep(IDLE_POLL_FREQ_HIGH_POWER_MS * 1000)`;
  - `HIGH_POWER` otherwise: `usleep(IDLE_POLL_FREQ_HIGH_POWER_MS * 1000)`. -/
def pollOnce (s : ControllerState) (idleMS : Int) (retVal : Int) : PollResult :=
  if s.currentMode = Mode.LOW_POWER then
    if idleMS < SWITCH_TO_LOW_POWER_AFTER_IDLE_MS then
      let r := SwitchToHighPower s retVal
      { state := r.1, actions := r.2,
        sleepUs := (SWITCH_TO_LOW_POWER_AFTER_IDLE_MS - idleMS + 1) * 1000 }
    else
      { state := s, actions := [],
        sleepUs := IDLE_POLL_FREQ_LOW_POWER_MS * 1000 }
  else
    if idleMS ≥ SWITCH_TO_LOW_POWER_AFTER_IDLE_MS then
      let r := SwitchToLowPower s retVal
      { state := r.1, actions := r.2,
        sleepUs := IDLE_POLL_FREQ_HIGH_POWER_MS * 1000 }
    else
      { state := s, actions := [],
        sleepUs := IDLE_POLL_FREQ_HIGH_POWER_MS * 1000 }

/-- Runs the poll loop over a finite prefix of the environment's behaviour:
each list element pairs the idle sample `GetIdleTimeMS()` returns with the
value `system()` would return in that iteration. Yields the final state and
the concatenation of all actions issued, in order. -/
def runPolls (s : ControllerState) : List (Int × Int) → ControllerState × List Action
  | [] => (s, [])
  | (idleMS, retVal) :: rest =>
      let r := pollOnce s idleMS retVal
      let t := runPolls r.state rest
      (t.1, r.actions ++ t.2)

end Nvpowermizerd

namespace Nvpowermizerd

/-- Target of the last issued action in a history, starting from a default
mode `m` when the history is empty. -/
def lastTargetFrom (m : Mode) : List Action → Mode
  | [] => m
  | a :: rest => lastTargetFrom (targetOf a) rest

/-- Events visible around the signal-handling path: activation actions,
the resource releases performed by `Cleanup()`, and process exit. -/
inductive SysEvent
  | act (a : Action)
  | freeLowPowerCmd
  | freeHighPowerCmd
  | freeSSInfo
  | closeDisplay
  | exitProcess (status : Int)
deriving DecidableEq, Repr

/-- `Cleanup()`: `free(lowPowerCmd); free(highPowerCmd); XFree(SSInfo);
XCloseDisplay(display);` in that order. -/
def Cleanup : List SysEvent :=
  [SysEvent.freeLowPowerCmd, SysEvent.freeHighPowerCmd,
   SysEvent.freeSSInfo, SysEvent.closeDisplay]

/-- `HandleSignal(signum)`: logs the signal number (debug only), calls
`SwitchToLowPower()` (whose `system()` return value `retVal` is supplied by
the environment), calls `Cleanup()`, logs and calls `exit(0)`. The returned
trace lists the events in program order; `exitProcess 0` is terminal — the
process ends there and the poll loop never resumes. -/
def HandleSignal (s : ControllerState) (signum : Int) (retVal : Int) :
    ControllerState × List SysEvent :=
  let r := SwitchToLowPower s retVal
  (r.1, r.2.map SysEvent.act ++ Cleanup ++ [SysEvent.exitProcess 0])

/-- The activation actions contained in a system-event trace. -/
def sysActs : List SysEvent → List Action
  | [] => []
  | SysEvent.act a :: rest => a :: sysActs rest
  | _ :: rest => sysActs rest

/-- `SIGTERM` on Linux. -/
def SIGTERM : Int := 15

/-- `SIGINT` on Linux. -/
def SIGINT : Int := 2

/-- The signals `Init()` routes to `HandleSignal` via `sigaction`. -/
def installedSignals : List Int := [SIGTERM, SIGINT]

/-- Possible log lines at normal (non-verbose) verbosity that the claims
refer to. -/
inductive LogLine
  | couldntOpenDisplay
deriving DecidableEq, Repr

/-- `Init()` after installing the signal handlers: allocates `SSInfo`, then
`if ((display = XOpenDisplay(NULL)) == NULL) { LOG(...); exit(1); }`.
`displayOpened` tells whether `XOpenDisplay` succeeded; on failure the
process logs the cause and exits with status 1 (the `Except.error` carries
the emitted log and the exit status). -/
def Init (displayOpened : Bool) : Except (List LogLine × Int) Unit :=
  if displayOpened then Except.ok ()
  else Except.error ([LogLine.couldntOpenDisplay], 1)

/-- `main`: `Init()` runs first; if it exits (display unavailable) the
process terminates with that status before the poll loop and before any
command string is executed. Otherwise the poll loop runs over the supplied
environment behaviour (`PrepareCommands` success and argument parsing are
assumed, fixing `gpuID`). -/
def mainRun (displayOpened : Bool) (gpuID : Int) (polls : List (Int × Int)) :
    Except (List LogLine × Int) (ControllerState × List Action) :=
  match Init displayOpened with
  | Except.error e => Except.error e
  | Except.ok _ => Except.ok (runPolls (initialState gpuID) polls)

end Nvpowermizerd

namespace Nvpowermizerd

/-- **C1.** In `LOW_POWER` mode, an idle sample strictly below the threshold
makes the poll iteration issue exactly one `Activate(High, gpuID)` action
and leaves the controller in `HIGH_POWER` mode. -/
theorem C1_low_to_high (s : ControllerState) (idleMS retVal : Int)
    (hMode : s.currentMode = Mode.LOW_POWER)
    (hIdle : idleMS < SWITCH_TO_LOW_POWER_AFTER_IDLE_MS) :
    (pollOnce s idleMS retVal).actions = [Action.activate Mode.HIGH_POWER s.gpuID] ∧
    (pollOnce s idleMS retVal).state.currentMode = Mode.HIGH_POWER := by
  simp [pollOnce, SwitchToHighPower, hMode, hIdle]

/-- Witness for C1 at a concrete input. -/
theorem C1_low_to_high_witness :
    (pollOnce (initialState 2) 100 0).actions = [Action.activate Mode.HIGH_POWER 2] ∧
    (pollOnce (initialState 2) 100 0).state.currentMode = Mode.HIGH_POWER :=
  C1_low_to_high (initialState 2) 100 0 (by decide) (by decide)

/-- **C2.** In `HIGH_POWER` mode, an idle sample at or above the threshold
(boundary included) makes the poll iteration issue exactly one
`Activate(Low, gpuID)` action and leaves the controller in `LOW_POWER`. -/
theorem C2_high_to_low (s : ControllerState) (idleMS retVal : Int)
    (hMode : s.currentMode = Mode.HIGH_POWER)
    (hIdle : SWITCH_TO_LOW_POWER_AFTER_IDLE_MS ≤ idleMS) :
    (pollOnce s idleMS retVal).actions = [Action.activate Mode.LOW_POWER s.gpuID] ∧
    (pollOnce s idleMS retVal).state.currentMode = Mode.LOW_POWER := by
  have hNe : ¬ s.currentMode = Mode.LOW_POWER := by
    rw [hMode]; intro h; cases h
  simp [pollOnce, SwitchToLowPower, hNe, hIdle]

/-- Witness for C2 at the boundary sample equal to the threshold. -/
theorem C2_high_to_low_witness :
    (pollOnce { currentMode := Mode.HIGH_POWER, gpuID := 2 } 20000 0).actions
      = [Action.activate Mode.LOW_POWER 2] ∧
    (pollOnce { currentMode := Mode.HIGH_POWER, gpuID := 2 } 20000 0).state.currentMode
      = Mode.LOW_POWER :=
  C2_high_to_low { currentMode := Mode.HIGH_POWER, gpuID := 2 } 20000 0
    (by decide) (by decide)

/-- **C3.** When the sample is at or above threshold in `LOW_POWER`, or
strictly below threshold in `HIGH_POWER`, the poll iteration issues no
action and leaves the whole controller state unchanged. -/
theorem C3_no_op (s : ControllerState) (idleMS retVal : Int)
    (h : (s.currentMode = Mode.LOW_POWER ∧ SWITCH_TO_LOW_POWER_AFTER_IDLE_MS ≤ idleMS)
       ∨ (s.currentMode = Mode.HIGH_POWER ∧ idleMS < SWITCH_TO_LOW_POWER_AFTER_IDLE_MS)) :
    (pollOnce s idleMS retVal).actions = [] ∧
    (pollOnce s idleMS retVal).state = s := by
  rcases h with ⟨hMode, hIdle⟩ | ⟨hMode, hIdle⟩
  · simp [pollOnce, hMode, not_lt.mpr hIdle]
  · have hNe : ¬ s.currentMode = Mode.LOW_POWER := by
      rw [hMode]; intro h; cases h
    simp [pollOnce, hNe, not_le.mpr hIdle]

/-- Witness for C3: a sample equal to the threshold while already `Low`. -/
theorem C3_no_op_witness :
    (pollOnce (initialState 2) 20000 0).actions = [] ∧
    (pollOnce (initialState 2) 20000 0).state = initialState 2 :=
  C3_no_op (initialState 2) 20000 0 (Or.inl ⟨by decide, by decide⟩)

end Nvpowermizerd

namespace Nvpowermizerd

/-- Each poll iteration updates `currentMode` to the target of the last
action it issued (or keeps it when it issues none). -/
theorem pollOnce_mode_lastTarget (s : ControllerState) (idleMS retVal : Int) :
    (pollOnce s idleMS retVal).state.currentMode
      = lastTargetFrom s.currentMode (pollOnce s idleMS retVal).actions := by
  by_cases hMode : s.currentMode = Mode.LOW_POWER
  · by_cases hIdle : idleMS < SWITCH_TO_LOW_POWER_AFTER_IDLE_MS
    · simp [pollOnce, SwitchToHighPower, hMode, hIdle, lastTargetFrom, targetOf]
    · simp [pollOnce, hMode, hIdle, lastTargetFrom]
  · by_cases hIdle : SWITCH_TO_LOW_POWER_AFTER_IDLE_MS ≤ idleMS
    · simp [pollOnce, SwitchToLowPower, hMode, hIdle, lastTargetFrom, targetOf]
    · simp [pollOnce, hMode, hIdle, lastTargetFrom]

/-- `lastTargetFrom` splits over history concatenation. -/
theorem lastTargetFrom_append (m : Mode) (xs ys : List Action) :
    lastTargetFrom m (xs ++ ys) = lastTargetFrom (lastTargetFrom m xs) ys := by
  induction xs generalizing m with
  | nil => rfl
  | cons a rest ih => simp [lastTargetFrom, ih]

/-- **C4.** From the initial state `currentMode = LOW_POWER`, `Mode` always
equals the target mode of the last issued transition command (`LOW_POWER`
when none has been issued): the invariant holds initially and is preserved
both by every poll iteration and by every signal-handler invocation, no
matter what `system()` returned for those commands. -/
theorem C4_mode_invariant :
    (∀ gpuID : Int,
      (initialState gpuID).currentMode = lastTargetFrom Mode.LOW_POWER []) ∧
    (∀ (s : ControllerState) (hist : List Action) (idleMS retVal : Int),
      s.currentMode = lastTargetFrom Mode.LOW_POWER hist →
      (pollOnce s idleMS retVal).state.currentMode
        = lastTargetFrom Mode.LOW_POWER (hist ++ (pollOnce s idleMS retVal).actions)) ∧
    (∀ (s : ControllerState) (hist : List Action) (signum retVal : Int),
      s.currentMode = lastTargetFrom Mode.LOW_POWER hist →
      (HandleSignal s signum retVal).1.currentMode
        = lastTargetFrom Mode.LOW_POWER
            (hist ++ sysActs (HandleSignal s signum retVal).2)) := by
  refine ⟨fun _ => rfl, fun s hist idleMS retVal h => ?_,
          fun s hist signum retVal h => ?_⟩
  · rw [lastTargetFrom_append, ← h, pollOnce_mode_lastTarget]
  · rw [lastTargetFrom_append]
    simp [HandleSignal, SwitchToLowPower, Cleanup, sysActs, lastTargetFrom, targetOf]

/-- Witness for C4: the preservation step applied at a concrete state and
history after one issued `Activate(High, 2)` command. -/
theorem C4_mode_invariant_witness :
    (pollOnce { currentMode := Mode.HIGH_POWER, gpuID := 2 } 25000 0).state.currentMode
      = lastTargetFrom Mode.LOW_POWER
          ([Action.activate Mode.HIGH_POWER 2]
            ++ (pollOnce { currentMode := Mode.HIGH_POWER, gpuID := 2 } 25000 0).actions) :=
  C4_mode_invariant.2.1 { currentMode := Mode.HIGH_POWER, gpuID := 2 }
    [Action.activate Mode.HIGH_POWER 2] 25000 0 (by decide)

/-- **C5.** Delivering `SIGTERM` or `SIGINT` in any current mode makes the
handler issue exactly one final `Activate(Low, gpuID)` action, after which
the process exits with status 0 — the terminal `exitProcess` event — so the
poll loop never resumes. -/
theorem C5_termination (s : ControllerState) (signum retVal : Int)
    (hSig : signum = SIGTERM ∨ signum = SIGINT) :
    sysActs (HandleSignal s signum retVal).2
      = [Action.activate Mode.LOW_POWER s.gpuID] ∧
    (HandleSignal s signum retVal).2.getLast? = some (SysEvent.exitProcess 0) := by
  cases hSig <;> simp [HandleSignal, SwitchToLowPower, Cleanup, sysActs]

/-- Witness for C5: `SIGTERM` delivered while already in `LOW_POWER`. -/
theorem C5_termination_witness :
    sysActs (HandleSignal (initialState 2) 15 0).2
      = [Action.activate Mode.LOW_POWER 2] ∧
    (HandleSignal (initialState 2) 15 0).2.getLast?
      = some (SysEvent.exitProcess 0) :=
  C5_termination (initialState 2) 15 0 (Or.inl (by decide))

end Nvpowermizerd

namespace Nvpowermizerd

/-- **C6.** A failing `system()` call (non-zero return, including the value
reported when the command cannot be launched) changes nothing: the poll
iteration behaves exactly as on success, the transition that triggered it
still sets `currentMode` to the target mode with exactly one action issued
and no retry or rollback, and the loop goes on to the next cycle (the run
over a trace beginning with this cycle continues with the remaining
cycles from the optimistically updated state). -/
theorem C6_failure_ignored (s : ControllerState) (idleMS retVal : Int)
    (hFail : retVal ≠ 0) :
    pollOnce s idleMS retVal = pollOnce s idleMS 0 ∧
    (s.currentMode = Mode.LOW_POWER → idleMS < SWITCH_TO_LOW_POWER_AFTER_IDLE_MS →
      (pollOnce s idleMS retVal).state.currentMode = Mode.HIGH_POWER ∧
      (pollOnce s idleMS retVal).actions.length = 1) ∧
    (s.currentMode = Mode.HIGH_POWER → SWITCH_TO_LOW_POWER_AFTER_IDLE_MS ≤ idleMS →
      (pollOnce s idleMS retVal).state.currentMode = Mode.LOW_POWER ∧
      (pollOnce s idleMS retVal).actions.length = 1) ∧
    (∀ rest : List (Int × Int),
      runPolls s ((idleMS, retVal) :: rest)
        = ((runPolls (pollOnce s idleMS retVal).state rest).1,
           (pollOnce s idleMS retVal).actions
             ++ (runPolls (pollOnce s idleMS retVal).state rest).2)) := by
  refine ⟨rfl, fun hMode hIdle => ?_, fun hMode hIdle => ?_, fun rest => rfl⟩
  · simp [pollOnce, SwitchToHighPower, hMode, hIdle]
  · have hNe : ¬ s.currentMode = Mode.LOW_POWER := by
      rw [hMode]; intro h; cases h
    simp [pollOnce, SwitchToLowPower, hNe, hIdle]

/-- Witness for C6: the `system` return value 127 (command not launchable)
during a `Low → High` transition. -/
theorem C6_failure_ignored_witness :
    pollOnce (initialState 2) 100 127 = pollOnce (initialState 2) 100 0 ∧
    (pollOnce (initialState 2) 100 127).state.currentMode = Mode.HIGH_POWER ∧
    (pollOnce (initialState 2) 100 127).actions.length = 1 :=
  ⟨(C6_failure_ignored (initialState 2) 100 127 (by decide)).1,
   (C6_failure_ignored (initialState 2) 100 127 (by decide)).2.1
     (by decide) (by decide)⟩

/-- **C7.** With threshold 20000 ms, initial mode `LOW_POWER` and GPU id 2,
the sample sequence [25000, 15000, 500, 21000] produces exactly the action
sequence `Activate(High, 2)` (at sample 15000) then `Activate(Low, 2)` (at
sample 21000), whatever `system()` returns in each cycle. -/
theorem C7_scenario (r1 r2 r3 r4 : Int) :
    (runPolls (initialState 2)
        [(25000, r1), (15000, r2), (500, r3), (21000, r4)]).2
      = [Action.activate Mode.HIGH_POWER 2, Action.activate Mode.LOW_POWER 2] := by
  simp [runPolls, pollOnce, initialState, SwitchToHighPower, SwitchToLowPower,
        SWITCH_TO_LOW_POWER_AFTER_IDLE_MS]

/-- **C8.** On every `Low → High` transition triggered by sample `idleMS`,
the `usleep` argument is `(SWITCH_TO_LOW_POWER_AFTER_IDLE_MS - idleMS + 1)
* 1000` microseconds, i.e. `idleThresholdMs - idleMS + 1` milliseconds —
not the short `IDLE_POLL_FREQ_LOW_POWER_MS` poll interval. -/
theorem C8_computed_sleep (s : ControllerState) (idleMS retVal : Int)
    (hMode : s.currentMode = Mode.LOW_POWER)
    (hIdle : idleMS < SWITCH_TO_LOW_POWER_AFTER_IDLE_MS) :
    (pollOnce s idleMS retVal).sleepUs
      = (SWITCH_TO_LOW_POWER_AFTER_IDLE_MS - idleMS + 1) * 1000 := by
  simp [pollOnce, hMode, hIdle]

/-- Witness for C8: sample 15000 gives a 5001 ms sleep. -/
theorem C8_computed_sleep_witness :
    (pollOnce (initialState 2) 15000 0).sleepUs = (20000 - 15000 + 1) * 1000 :=
  (C8_computed_sleep (initialState 2) 15000 0 (by decide) (by decide)).trans
    (by decide)

/-- **C9.** When the display cannot be opened at startup, `main` logs the
cause and the process exits with status 1 immediately: for every GPU id and
every environment behaviour, the run is the error exit carrying the
"Couldn't open X display!" log and status 1, with no poll cycle executed
and no activation action issued. -/
theorem C9_fatal_init (gpuID : Int) (polls : List (Int × Int)) :
    mainRun false gpuID polls
      = Except.error ([LogLine.couldntOpenDisplay], 1) := rfl

end Nvpowermizerd

namespace Nvpowermizerd

/-- **C10.** For every delivered `SIGINT` or `SIGTERM`, the handler's event
trace is, in program order: the forced low-power activation, then the
resource releases of `Cleanup()` (the two command strings, the screensaver
info, the display connection, in that order), then `exit(0)`. -/
theorem C10_handler_order (s : ControllerState) (signum retVal : Int)
    (hSig : signum = SIGINT ∨ signum = SIGTERM) :
    (HandleSignal s signum retVal).2
      = SysEvent.act (Action.activate Mode.LOW_POWER s.gpuID)
          :: (Cleanup ++ [SysEvent.exitProcess 0]) ∧
    Cleanup = [SysEvent.freeLowPowerCmd, SysEvent.freeHighPowerCmd,
               SysEvent.freeSSInfo, SysEvent.closeDisplay] := by
  cases hSig <;> exact ⟨rfl, rfl⟩

/-- Witness for C10: `SIGINT` delivered in `HIGH_POWER` mode. -/
theorem C10_handler_order_witness :
    (HandleSignal { currentMode := Mode.HIGH_POWER, gpuID := 2 } 2 0).2
      = SysEvent.act (Action.activate Mode.LOW_POWER 2)
          :: (Cleanup ++ [SysEvent.exitProcess 0]) ∧
    Cleanup = [SysEvent.freeLowPowerCmd, SysEvent.freeHighPowerCmd,
               SysEvent.freeSSInfo, SysEvent.closeDisplay] :=
  C10_handler_order { currentMode := Mode.HIGH_POWER, gpuID := 2 } 2 0
    (Or.inl (by decide))

end Nvpowermizerd
